import Mathlib

/-!
Shallow embedding of the `bigquery-taxi-trips` ELT pipeline
(`src/extract.py`, `src/extract_weather.py`, `src/load.py`,
`src/load_weather.py`) and proofs about the spec's claims.

External services (HTTP, Google Cloud Storage, BigQuery) are modelled by
explicit oracles: an HTTP fetch is a function from URL to an optional
body, a BigQuery query result is an `Except` value (an exception or a row
list), and each step of a load protocol is an `Except` outcome supplied by
a step oracle.  Object-store state is the finite set of object paths
present in the bucket; warehouse state is the finite set of source-file
names recorded in the provenance column of the destination table.
The file first gives all definitions, then all theorems.
-/

namespace TaxiTrips

/-! ### String helpers

Python string operations used by the sources (`str.endswith`,
`"x/y".split('/')[-1]`, `str.replace`) re-implemented structurally over
`List Char` so that every definition reduces in the kernel. -/

/-- `listStartsWith pat s` is true when `pat` is an initial segment of `s`. -/
def listStartsWith : List Char → List Char → Bool
  | [], _ => true
  | _ :: _, [] => false
  | p :: ps, c :: cs => p == c && listStartsWith ps cs

/-- Python `s.endswith(suf)`. -/
def strEndsWith (s suf : String) : Bool :=
  listStartsWith suf.data.reverse s.data.reverse

/-- Suffix of the character list after the last `'/'`; helper for
`lastComponent`. -/
def lastComponentAux : List Char → List Char → List Char
  | [], acc => acc.reverse
  | c :: rest, acc =>
    if c = '/' then lastComponentAux rest [] else lastComponentAux rest (c :: acc)

/-- Python `name.split('/')[-1]`: the part of the path after the last slash. -/
def lastComponent (s : String) : String :=
  ⟨lastComponentAux s.data []⟩

/-- Python `s.replace(old, new)` with explicit fuel (`fuel = s.length`
suffices because each replacement consumes at least one character of the
non-empty pattern). -/
def pyReplaceAux (pat rep : List Char) : Nat → List Char → List Char
  | 0, s => s
  | _ + 1, [] => []
  | fuel + 1, c :: rest =>
    if pat ≠ [] ∧ listStartsWith pat (c :: rest) then
      rep ++ pyReplaceAux pat rep fuel ((c :: rest).drop pat.length)
    else
      c :: pyReplaceAux pat rep fuel rest

/-- Python `s.replace(old, new)`: replace non-overlapping occurrences left
to right. -/
def pyReplace (s old new : String) : String :=
  ⟨pyReplaceAux old.data new.data s.data.length s.data⟩

/-! ### Configuration documents (`load_config` / `resolve_config_references`)

A YAML configuration document is modelled as a two-level mapping: top
level keys map either to a scalar leaf or to a section (a one-level
mapping of scalars); this covers every structure the claims touch.  A
Python `dict` is an association list whose keys are unique; lookups take
the first match.  `resolve_config_references` in the sources serializes
the document to YAML text, textually replaces each placeholder by the
corresponding top-level string value, and re-parses; it is modelled
structurally as the same sequence of textual replacements applied inside
every string leaf (keys are assumed not to contain placeholders). -/

/-- A scalar YAML value. -/
inductive Leaf where
  | nat (n : Nat)
  | str (s : String)
deriving DecidableEq, Repr

/-- A top-level YAML value: a scalar, or a section mapping keys to
scalars. -/
inductive Value where
  | leaf (l : Leaf)
  | dict (entries : List (String × Leaf))
deriving DecidableEq, Repr

/-- Whether a top-level value is a section (`isinstance(v, dict)`). -/
def Value.isDictB : Value → Bool
  | .dict _ => true
  | .leaf _ => false

/-- Python `d[k]` / `k in d` on an association list: first match wins. -/
def lookupKey (doc : List (String × Value)) (k : String) : Option Value :=
  (doc.find? (fun kv => kv.1 == k)).map Prod.snd

/-- Python `d1.copy()` followed by `d1.update(d2)`: keys of `d1` keep
their position but take `d2`'s value when present; keys only in `d2` are
appended in `d2`'s order. -/
def pyDictUpdate (d1 d2 : List (String × Value)) : List (String × Value) :=
  (d1.map fun kv =>
    match lookupKey d2 kv.1 with
    | some v => (kv.1, v)
    | none => kv)
  ++ d2.filter (fun kv => (lookupKey d1 kv.1).isNone)

/-- A section's entries viewed as top-level values. -/
def liftSection (sec : List (String × Leaf)) : List (String × Value) :=
  sec.map fun kv => (kv.1, Value.leaf kv.2)

/-- The placeholder text for a key: a dollar sign and the key in braces. -/
def placeholder (key : String) : String :=
  "$" ++ "\x7b" ++ key ++ "\x7d"

/-- Textual replacement inside a scalar. -/
def substLeaf (pat rep : String) : Leaf → Leaf
  | .nat n => .nat n
  | .str s => .str (pyReplace s pat rep)

/-- Textual replacement inside a top-level value. -/
def substValue (pat rep : String) : Value → Value
  | .leaf l => .leaf (substLeaf pat rep l)
  | .dict e => .dict (e.map fun kv => (kv.1, substLeaf pat rep kv.2))

/-- The top-level string-valued pairs of the document, in order
(`{k: v for k, v in config.items() if isinstance(v, str)}`). -/
def topStringPairs (doc : List (String × Value)) : List (String × String) :=
  doc.filterMap fun kv =>
    match kv.2 with
    | .leaf (.str v) => some (kv.1, v)
    | _ => none

/-- `resolve_config_references` (same function in `extract.py`,
`extract_weather.py`, `load_weather.py`, and `load.py`): for each
top-level string pair `(key, value)` of the original document, in order,
replace the text `${key}` by `value` throughout the document. -/
def resolve_config_references (doc : List (String × Value)) :
    List (String × Value) :=
  (topStringPairs doc).foldl
    (fun d kv => d.map fun e => (e.1, substValue (placeholder kv.1) kv.2 e.2))
    doc

/-- `load.py load_config`, lines 27–61: when a section is requested and
present, start from the top-level keys whose values are not dicts, overlay
the section's entries, then resolve placeholder references in the combined
mapping.  A present but non-dict section makes `dict.update` raise, which
the function re-raises (`none`).  With no section (or an absent one) the
whole resolved document is returned. -/
def load_loadConfig (doc : List (String × Value)) :
    Option String → Option (List (String × Value))
  | none => some (resolve_config_references doc)
  | some s =>
    match lookupKey doc s with
    | some (.dict sec) =>
      some (resolve_config_references
        (pyDictUpdate (doc.filter fun kv => !kv.2.isDictB) (liftSection sec)))
    | some (.leaf _) => none
    | none => some (resolve_config_references doc)

/-- `extract.py load_config`, lines 13–30: references are resolved first;
when a section is requested and present, start from every top-level key
except the ones literally named `extract` or `load` (other section keys
are kept), then overlay the section's entries. -/
def extract_loadConfig (doc : List (String × Value)) :
    Option String → Option (List (String × Value))
  | none => some (resolve_config_references doc)
  | some s =>
    let resolved := resolve_config_references doc
    match lookupKey resolved s with
    | some (.dict sec) =>
      some (pyDictUpdate
        (resolved.filter fun kv => !(kv.1 == "extract") && !(kv.1 == "load"))
        (liftSection sec))
    | some (.leaf _) => none
    | none => some resolved

/-- The document of the spec's merge scenario: globals `{x:1, y:2}` and
section `load: {y:3, z:4}`. -/
def specConfigDoc : List (String × Value) :=
  [("x", .leaf (.nat 1)), ("y", .leaf (.nat 2)),
   ("load", .dict [("y", .nat 3), ("z", .nat 4)])]

/-- A document with a section besides `extract`/`load`: globals `{x:1}`,
sections `load: {y:3}` and `extract_weather: {w:9}`. -/
def mixedConfigDoc : List (String × Value) :=
  [("x", .leaf (.nat 1)),
   ("load", .dict [("y", .nat 3)]),
   ("extract_weather", .dict [("w", .nat 9)])]

/-! ### Staging existence gate (`load.py`, `load_weather.py`)

`get_gcs_files` keeps the blob names that end with the configured
extension and takes the part after the last `/`; `get_existing_files`
runs a `SELECT DISTINCT` over the provenance column and, on any
exception, returns the empty set. -/

/-- `load.py get_gcs_files`: the set of staged file names, i.e. the last
path component of every listed blob name with the configured extension. -/
def get_gcs_files (blobNames : List String) (ext : String) : Finset String :=
  ((blobNames.filter (fun n => strEndsWith n ext)).map lastComponent).toFinset

/-- `load.py get_existing_files`: the distinct non-null values of the
provenance column, or the empty set when the query raises for any reason
(the `except` clause catches every exception). -/
def get_existing_files (queryResult : Except String (List String)) :
    Finset String :=
  match queryResult with
  | .ok rows => rows.toFinset
  | .error _ => ∅

/-- `load_weather.py get_existing_weather_files`: same shape as
`get_existing_files` — distinct `source_file` values, empty set on any
exception. -/
def get_existing_weather_files (queryResult : Except String (List String)) :
    Finset String :=
  match queryResult with
  | .ok rows => rows.toFinset
  | .error _ => ∅

/-- `load.py load_new_files`, line 183: the work set is
`get_gcs_files(...) - get_existing_files(...)` (Python set difference). -/
def new_files_workset (gcs existing : Finset String) : Finset String :=
  gcs \ existing

/-- The work set `load_new_files` computes from the raw inputs: blob
listing, configured extension, and warehouse query outcome. -/
def load_new_files_workset (blobNames : List String) (ext : String)
    (queryResult : Except String (List String)) : Finset String :=
  new_files_workset (get_gcs_files blobNames ext) (get_existing_files queryResult)

/-- `load_weather.py load_weather_pipeline`, line 402: keep the blobs
whose file name (last path component) is not among the already-loaded
files. -/
def weather_new_files (blobNames : List String) (existing : Finset String) :
    List String :=
  blobNames.filter (fun n => lastComponent n ∉ existing)

/-! ### Remote file planner (`extract.py generate_file_list`)

`generate_file_list` iterates `year in range(start_year, current_year+1)`
and `month in range(1, 13)`, skips months strictly after the current month
in the current year, and builds one descriptor dict per surviving pair.
The current date (`datetime.now()`) is modelled by the pair
`(curYear, curMonth)`.  The descriptor dict only carries the three string
fields; the `year`/`month` fields below record the loop indices the
strings are built from, so that "never in the future" can be stated. -/

/-- Python `f"{month:02d}"` for the values that occur (months `1..12`). -/
def pad2 (n : Nat) : String :=
  if n < 10 then "0" ++ toString n else toString n

/-- One planned file: `{"file_name": ..., "gcs_path": ..., "url": ...}`
plus the `(year, month)` loop indices it was generated from. -/
structure FileRec where
  year : Nat
  month : Nat
  file_name : String
  gcs_path : String
  url : String
deriving DecidableEq, Repr

/-- `extract.py generate_file_list`: one descriptor per `(year, month)` in
`[start_year, current_year] × [1, 12]` that is not strictly after the
current month of the current year.  `fPre`/`ext`/`folder` are the
configured file name parts; `urlPattern` is the URL-pattern function. -/
def generate_file_list (startYear curYear curMonth : Nat)
    (fPre ext folder : String) (urlPattern : String → String) : List FileRec :=
  (List.range' startYear (curYear + 1 - startYear)).flatMap fun year =>
    (List.range' 1 12).filterMap fun month =>
      if year = curYear ∧ curMonth < month then none
      else
        let fileName := fPre ++ "_" ++ toString year ++ "-" ++ pad2 month ++ ext
        some { year := year, month := month, file_name := fileName,
               gcs_path := folder ++ fileName, url := urlPattern fileName }

/-! ### Fetch and filter (`extract.py fetch_and_filter_file`)

The HTTP layer is an `Except` yielding a status code and body; the
parquet layer is an oracle giving the outcome of `pq.read_schema` and of
the re-read/re-encode of a chosen column list.  The function returns the
bytes to stage, or `none` when the file is skipped (404, other non-200
status, or transport error). -/

/-- A `requests` response: HTTP status code and body bytes. -/
structure HttpResponse where
  status : Nat
  body : List Nat
deriving DecidableEq, Repr

/-- Outcomes of the parquet operations attempted during filtering:
reading the schema (the available column names) and projecting a column
list to new bytes (`read_table` + `write_table`). -/
structure ParquetOracle where
  readSchema : Except String (List String)
  project : List String → Except String (List Nat)

/-- `extract.py fetch_and_filter_file`, lines 108–161.  A transport
exception or a non-200/404 status yields `none` (the file is skipped); a
404 also yields `none` (logged as a warning, not an error).  On a 200
body: no column filter or a non-parquet URL passes the body through;
otherwise the schema is read, the requested columns are intersected with
the available ones, and an empty intersection, a schema-read failure, or
a projection failure all fall back to the full body. -/
def fetch_and_filter_file (resp : Except String HttpResponse)
    (url : String) (selectedColumns : List String) (po : ParquetOracle) :
    Option (List Nat) :=
  match resp with
  | .error _ => none
  | .ok r =>
    if r.status = 200 then
      if selectedColumns = [] ∨ strEndsWith url ".parquet" = false then
        some r.body
      else
        match po.readSchema with
        | .error _ => some r.body
        | .ok available =>
          let columnsToRead := selectedColumns.filter fun c => decide (c ∈ available)
          if columnsToRead = [] then some r.body
          else
            match po.project columnsToRead with
            | .error _ => some r.body
            | .ok outBytes => some outBytes
    else none

/-! ### Staging loop (`extract.py process_files`)

For each planned file, in order: skip when the destination path already
exists in the object store; otherwise fetch (and possibly filter), and
upload when the returned content is truthy (non-`None` and non-empty),
counting it as processed.  The object store is the set of object paths;
uploads insert the destination path.  The per-file politeness sleep has
no observable effect here. -/

/-- What happened to one candidate during staging. -/
inductive StageEvent where
  | skippedExists (name : String)
  | staged (name : String)
  | notStaged (name : String)
deriving DecidableEq, Repr

/-- `extract.py process_files`, lines 191–218: returns the final store
state, the processed count, and the per-file event list (in input
order). -/
def process_files (fetch : String → Option (List Nat)) :
    List FileRec → Finset String → Finset String × Nat × List StageEvent
  | [], store => (store, 0, [])
  | f :: rest, store =>
    if f.gcs_path ∈ store then
      let r := process_files fetch rest store
      (r.1, r.2.1, .skippedExists f.file_name :: r.2.2)
    else
      match fetch f.url with
      | some c =>
        if c = [] then
          let r := process_files fetch rest store
          (r.1, r.2.1, .notStaged f.file_name :: r.2.2)
        else
          let r := process_files fetch rest (insert f.gcs_path store)
          (r.1, r.2.1 + 1, .staged f.file_name :: r.2.2)
      | none =>
        let r := process_files fetch rest store
        (r.1, r.2.1, .notStaged f.file_name :: r.2.2)

/-! ### Per-file load protocol (`load.py process_file`) and orchestrator

`process_file` runs three BigQuery steps inside one `try`:
  1. load the staged file into a temp table (`load_table_from_uri`),
  2. run the generated transformation query inserting into the
     destination table,
  3. `delete_table(temp_table_id, not_found_ok=True)`.
Any exception at any step is caught by the single `except`, which logs
the file name and returns `False`; success returns `True`.  There is no
`finally` clause.  The outcome of each warehouse call is supplied by a
`StepOracle`; the sequence of warehouse calls actually attempted is
recorded as a `LoadAction` trace. -/

/-- Outcomes of the three warehouse calls of `process_file`, per file. -/
structure StepOracle where
  loadStep : String → Except String Unit
  transformStep : String → Except String Unit
  cleanupStep : String → Except String Unit

/-- BigQuery calls attempted by `process_file`, plus the error log entry
of its `except` clause.  The `notFoundOk` flag on the drop records that
the source passes `not_found_ok=True`, so a missing temp table is not an
error at that step. -/
inductive LoadAction where
  | loadTempTable (file : String)
  | transformInsert (file : String)
  | dropTempTable (file : String) (notFoundOk : Bool)
  | logFileError (file : String) (msg : String)
deriving DecidableEq, Repr

/-- `load.py process_file`, lines 146–177: the attempted-call trace and
the returned boolean. -/
def process_file_tr (o : StepOracle) (file : String) : List LoadAction × Bool :=
  match o.loadStep file with
  | .error e => ([.loadTempTable file, .logFileError file e], false)
  | .ok _ =>
    match o.transformStep file with
    | .error e =>
      ([.loadTempTable file, .transformInsert file, .logFileError file e], false)
    | .ok _ =>
      match o.cleanupStep file with
      | .error e =>
        ([.loadTempTable file, .transformInsert file,
          .dropTempTable file true, .logFileError file e], false)
      | .ok _ =>
        ([.loadTempTable file, .transformInsert file,
          .dropTempTable file true], true)

/-- The boolean `process_file` returns. -/
def process_file (o : StepOracle) (file : String) : Bool :=
  (process_file_tr o file).2

/-- `load.py load_new_files`, lines 199–202: the per-file results of
`executor.map(process_func, new_files)` (the executor preserves input
order and processes every item). -/
def load_new_files_results (o : StepOracle) (newFiles : List String) :
    List Bool :=
  newFiles.map (process_file o)

/-- `load.py load_new_files`, line 204: `sum(results)` over booleans — the
number of `True` outcomes. -/
def load_new_files_count (o : StepOracle) (newFiles : List String) : Nat :=
  (load_new_files_results o newFiles).count true

/-- A step oracle whose transform-insert step raises (and whose other
steps succeed), as in the spec's partial-failure scenario. -/
def failingTransformOracle : StepOracle where
  loadStep := fun _ => .ok ()
  transformStep := fun _ => .error "insert failed"
  cleanupStep := fun _ => .ok ()

/-- A step oracle for which every warehouse call succeeds. -/
def allOkOracle : StepOracle where
  loadStep := fun _ => .ok ()
  transformStep := fun _ => .ok ()
  cleanupStep := fun _ => .ok ()

/-- Whether rows carrying `file`'s provenance were inserted into the
destination table: the temp-table load and the transform-insert both
succeeded (the generated query appends the literal file name as the
provenance column, `generate_transformation_query` line 135). -/
def rows_recorded (o : StepOracle) (file : String) : Bool :=
  (o.loadStep file).isOk && (o.transformStep file).isOk

/-- Warehouse provenance state after one `load_new_files` run: the old
known files plus every work-set file whose rows were inserted. -/
def warehouse_after_load (o : StepOracle) (gcs warehouse : Finset String) :
    Finset String :=
  warehouse ∪ (new_files_workset gcs warehouse).filter
    (fun f => rows_recorded o f)

/-- The success count of one `load_new_files` run against store state
`gcs` and warehouse state `warehouse` (`new_files = list(gcs - existing)`
then one `process_file` per element). -/
def load_new_files_count_run (o : StepOracle) (gcs warehouse : Finset String) :
    Nat :=
  load_new_files_count o ((new_files_workset gcs warehouse).sort (· ≤ ·))

/-! ### Weather numeric cleaning (`load_weather.py clean_numeric_data`)

For each of the seven numeric measurement columns present in the frame:
`astype(str)` (modelled by taking the cells in string form), then
`replace(['M','NA','None','null','','nan'], None)`, then
`to_numeric(errors='coerce')` (a null stays null, an un-parseable string
becomes null, a numeric string becomes its number).  `parse` abstracts
pandas' numeric parser; `toNumericModel` below is a concrete decimal
parser used to evaluate witnesses. -/

/-- The sentinel strings replaced by null. -/
def sentinel_strings : List String :=
  ["M", "NA", "None", "null", "", "nan"]

/-- The numeric measurement columns (`numeric_columns` in the source). -/
def weather_numeric_columns : List String :=
  ["tmpf", "p01i", "vsby", "sknt", "gust", "lon", "lat"]

/-- `df[col].replace(['M', 'NA', 'None', 'null', '', 'nan'], None)`. -/
def replaceSentinels (cells : List String) : List (Option String) :=
  cells.map fun s => if s ∈ sentinel_strings then none else some s

/-- `pd.to_numeric(df[col], errors='coerce')`: nulls stay null, failures
coerce to null. -/
def to_numeric_coerce (parse : String → Option ℚ) :
    List (Option String) → List (Option ℚ) :=
  List.map fun c =>
    match c with
    | none => none
    | some s => parse s

/-- The two-stage cleaning of one numeric column. -/
def clean_numeric_column (parse : String → Option ℚ) (cells : List String) :
    List (Option ℚ) :=
  to_numeric_coerce parse (replaceSentinels cells)

/-- The effect of the cleaning on one cell. -/
def cleanCell (parse : String → Option ℚ) (s : String) : Option ℚ :=
  if s ∈ sentinel_strings then none else parse s

/-- `load_weather.py clean_numeric_data`, lines 224–232 on a frame given
as named columns of string cells: numeric columns are cleaned, all other
columns pass through untouched. -/
def clean_numeric_data (parse : String → Option ℚ)
    (df : List (String × List String)) :
    List (String × (List String ⊕ List (Option ℚ))) :=
  df.map fun col =>
    if col.1 ∈ weather_numeric_columns then
      (col.1, Sum.inr (clean_numeric_column parse col.2))
    else (col.1, Sum.inl col.2)

/-- The numeric value of a digit character. -/
def digitVal (c : Char) : Option Nat :=
  if '0' ≤ c ∧ c ≤ '9' then some (c.toNat - '0'.toNat) else none

/-- Parse a non-empty all-digit string as a natural number. -/
def parseNatDigits : List Char → Option Nat
  | [] => none
  | cs =>
    cs.foldl
      (fun acc c =>
        match acc, digitVal c with
        | some a, some d => some (a * 10 + d)
        | _, _ => none)
      (some 0)

/-- Split a character list at the first `'.'`. -/
def splitAtDot : List Char → List Char × Option (List Char)
  | [] => ([], none)
  | c :: rest =>
    if c = '.' then ([], some rest)
    else
      let r := splitAtDot rest
      (c :: r.1, r.2)

/-- A concrete decimal parser standing in for pandas' numeric parser:
optional sign, digits, optional fractional part. -/
def toNumericModel (s : String) : Option ℚ :=
  let signed :=
    match s.data with
    | '-' :: r => (true, r)
    | '+' :: r => (false, r)
    | r => (false, r)
  let parts := splitAtDot signed.2
  match parts.2 with
  | none =>
    match parseNatDigits parts.1 with
    | none => none
    | some n => some (if signed.1 then -(n : ℚ) else (n : ℚ))
  | some fr =>
    match parseNatDigits parts.1, parseNatDigits fr with
    | some n, some f =>
      some (if signed.1 then
              -((n : ℚ) + (f : ℚ) / ((10 : ℚ) ^ fr.length))
            else (n : ℚ) + (f : ℚ) / ((10 : ℚ) ^ fr.length))
    | _, _ => none

/-! ### Run structure and log shipping (`main` / pipeline entry points)

Each stage's entry point is modelled as the list of observable events it
performs, given oracles for the body's outcome and for the log-shipping
call, together with the exception (if any) escaping to the caller.

* `extract.py main`, lines 245–261, and `extract_weather.py main`, lines
  247–255: the body runs in a `try` whose `except` logs the error; the
  `finally` calls `upload_log` with no surrounding `try`, so a shipping
  failure propagates to the caller and nothing is printed.
* `load_weather.py load_weather_pipeline`, lines 388–421: the body's
  `except` logs then re-raises; the `finally` wraps `upload_log` in
  `try/except` and, on shipping failure, prints the error and the whole
  buffered log content.
* `load.py load_pipeline`, lines 216–290: a sequence of guarded set-up
  steps, each failure printing a message and returning; no step ships a
  log (`upload_log_to_gcs` is never called). -/

/-- Observable events of a run. -/
inductive RunEvent where
  | processing
  | logException (msg : String)
  | printMessage (msg : String)
  | shipLogAttempt
  | shipLogOk
  | shipLogFailed (msg : String)
  | printLogContent
deriving DecidableEq, Repr

/-- `extract.py main` (after configuration checks): event trace and the
exception escaping to the caller, if any. -/
def extract_main_run (body : Except String Nat) (ship : Except String Unit) :
    List RunEvent × Option String :=
  let bodyEvents :=
    match body with
    | .ok _ => [RunEvent.processing]
    | .error e => [RunEvent.processing, RunEvent.logException e]
  match ship with
  | .ok _ => (bodyEvents ++ [.shipLogAttempt, .shipLogOk], none)
  | .error e => (bodyEvents ++ [.shipLogAttempt, .shipLogFailed e], some e)

/-- `extract_weather.py main` (after configuration checks): structurally
identical to `extract.py main`. -/
def extract_weather_main_run (body : Except String Nat)
    (ship : Except String Unit) : List RunEvent × Option String :=
  let bodyEvents :=
    match body with
    | .ok _ => [RunEvent.processing]
    | .error e => [RunEvent.processing, RunEvent.logException e]
  match ship with
  | .ok _ => (bodyEvents ++ [.shipLogAttempt, .shipLogOk], none)
  | .error e => (bodyEvents ++ [.shipLogAttempt, .shipLogFailed e], some e)

/-- `load_weather.py load_weather_pipeline` (after configuration checks):
event trace and the exception escaping to the caller, if any (the body's
exception is re-raised after the `finally`). -/
def load_weather_pipeline_run (body : Except String Unit)
    (ship : Except String Unit) : List RunEvent × Option String :=
  let bodyPart :=
    match body with
    | .ok _ => ([RunEvent.processing], (none : Option String))
    | .error e => ([RunEvent.processing, RunEvent.logException e], some e)
  match ship with
  | .ok _ => (bodyPart.1 ++ [.shipLogAttempt, .shipLogOk], bodyPart.2)
  | .error e =>
    (bodyPart.1 ++ [.shipLogAttempt, .shipLogFailed e,
      .printMessage e, .printLogContent], bodyPart.2)

/-- Outcomes of the set-up steps of `load.py load_pipeline`. -/
structure LoadPipelineOracle where
  configFileExists : Bool
  readConfigFile : Except String Unit
  parseYaml : Except String Unit
  initLogs : Except String Unit
  loadCfg : Except String Unit
  initClients : Except String Unit

/-- `load.py load_pipeline`, lines 216–290: each set-up step either
succeeds or prints an error message and returns; the success path prints
a final message and returns.  No path ships a log. -/
def load_pipeline_run (o : LoadPipelineOracle) : List RunEvent :=
  if o.configFileExists = false then
    [.printMessage "config file does not exist"]
  else
    match o.readConfigFile with
    | .error e => [.printMessage e]
    | .ok _ =>
      match o.parseYaml with
      | .error e => [.printMessage e]
      | .ok _ =>
        match o.initLogs with
        | .error e => [.printMessage e]
        | .ok _ =>
          match o.loadCfg with
          | .error e => [.printMessage e]
          | .ok _ =>
            match o.initClients with
            | .error e => [.printMessage e]
            | .ok _ => [.printMessage "configuration and initialization ok"]

/-- A `load_pipeline` step oracle where every set-up step succeeds. -/
def allOkLoadPipelineOracle : LoadPipelineOracle where
  configFileExists := true
  readConfigFile := .ok ()
  parseYaml := .ok ()
  initLogs := .ok ()
  loadCfg := .ok ()
  initClients := .ok ()

/-!
## Theorems
-/

/-! ### Helper lemmas -/

/-- Full membership characterization of the planner output. -/
theorem mem_generate_file_list {sy cy cm : Nat} {fPre ext folder : String}
    {u : String → String} {r : FileRec} :
    r ∈ generate_file_list sy cy cm fPre ext folder u ↔
      sy ≤ r.year ∧ r.year ≤ cy ∧ 1 ≤ r.month ∧ r.month ≤ 12
        ∧ (r.year = cy → r.month ≤ cm)
        ∧ r.file_name = fPre ++ "_" ++ toString r.year ++ "-" ++ pad2 r.month ++ ext
        ∧ r.gcs_path = folder ++ r.file_name ∧ r.url = u r.file_name := by
  obtain ⟨ry, rm, rf, rg, ru⟩ := r
  simp only [generate_file_list, List.mem_flatMap, List.mem_filterMap,
    List.mem_range'_1]
  constructor
  · rintro ⟨y, hy, m, hm, hsome⟩
    by_cases hfut : y = cy ∧ cm < m
    · simp [hfut] at hsome
    · rw [if_neg hfut, Option.some.injEq, FileRec.mk.injEq] at hsome
      obtain ⟨rfl, rfl, rfl, rfl, rfl⟩ := hsome
      exact ⟨hy.1, by omega, hm.1, by omega, fun hyc => by omega, rfl, rfl, rfl⟩
  · rintro ⟨h1, h2, h3, h4, h5, rfl, rfl, rfl⟩
    refine ⟨ry, ⟨h1, by omega⟩, rm, ⟨h3, by omega⟩, ?_⟩
    have hfut : ¬ (ry = cy ∧ cm < rm) := by
      rintro ⟨hyc, hgt⟩
      exact absurd (h5 hyc) (by omega)
    rw [if_neg hfut]

/-- The staging loop only ever grows the object store. -/
theorem process_files_store_mono (fetch : String → Option (List Nat))
    (files : List FileRec) (store : Finset String) :
    store ⊆ (process_files fetch files store).1 := by
  induction files generalizing store with
  | nil => exact fun _ h => h
  | cons f rest ih =>
    by_cases hmem : f.gcs_path ∈ store
    · simpa [process_files, hmem] using ih store
    · cases hf : fetch f.url with
      | some c =>
        by_cases hc : c = []
        · simpa [process_files, hmem, hf, hc] using ih store
        · have := ih (insert f.gcs_path store)
          simp only [process_files, if_neg hmem, hf, if_neg hc]
          exact fun x hx => this (Finset.mem_insert_of_mem hx)
      | none => simpa [process_files, hmem, hf] using ih store

/-- After a run in which every candidate's fetch returns non-empty
content, every candidate's destination path is in the store. -/
theorem process_files_covers (fetch : String → Option (List Nat))
    (files : List FileRec) (store : Finset String)
    (hfetch : ∀ f ∈ files, ∃ c, fetch f.url = some c ∧ c ≠ []) :
    ∀ f ∈ files, f.gcs_path ∈ (process_files fetch files store).1 := by
  induction files generalizing store with
  | nil => intro f hf; cases hf
  | cons g rest ih =>
    intro f hf
    by_cases hmem : g.gcs_path ∈ store
    · simp only [process_files, if_pos hmem]
      rcases List.mem_cons.mp hf with rfl | hf'
      · exact process_files_store_mono fetch rest store hmem
      · exact ih store (fun f' hf' => hfetch f' (List.mem_cons_of_mem _ hf')) f hf'
    · obtain ⟨c, hc, hcne⟩ := hfetch g (List.mem_cons_self ..)
      simp only [process_files, if_neg hmem, hc, if_neg hcne]
      rcases List.mem_cons.mp hf with rfl | hf'
      · exact process_files_store_mono fetch rest _ (Finset.mem_insert_self ..)
      · exact ih (insert g.gcs_path store)
          (fun f' hf' => hfetch f' (List.mem_cons_of_mem _ hf')) f hf'

/-- When every candidate's destination path is already in the store, the
staging loop stages nothing, changes nothing, and skips every candidate
at the existence gate. -/
theorem process_files_all_exist (fetch : String → Option (List Nat))
    (files : List FileRec) (store : Finset String)
    (hall : ∀ f ∈ files, f.gcs_path ∈ store) :
    process_files fetch files store
      = (store, 0, files.map (fun f => .skippedExists f.file_name)) := by
  induction files with
  | nil => rfl
  | cons g rest ih =>
    have hg := hall g (List.mem_cons_self ..)
    simp only [process_files, if_pos hg, List.map_cons,
      ih (fun f hf => hall f (List.mem_cons_of_mem _ hf))]

/-- A second staging run from the state the first run left behind stages
zero objects and leaves the store unchanged (no assumption on fetch
outcomes). -/
theorem process_files_idempotent (fetch : String → Option (List Nat))
    (files : List FileRec) (store : Finset String) :
    (process_files fetch files (process_files fetch files store).1).1
        = (process_files fetch files store).1
      ∧ (process_files fetch files (process_files fetch files store).1).2.1 = 0 := by
  induction files generalizing store with
  | nil => exact ⟨rfl, rfl⟩
  | cons g rest ih =>
    by_cases hmem : g.gcs_path ∈ store
    · have hs1 : g.gcs_path ∈ (process_files fetch rest store).1 :=
        process_files_store_mono fetch rest store hmem
      simpa [process_files, hmem, hs1] using ih store
    · cases hf : fetch g.url with
      | some c =>
        by_cases hc : c = []
        · by_cases hs1 : g.gcs_path ∈ (process_files fetch rest store).1
          · simpa [process_files, hmem, hf, hc, hs1] using ih store
          · simpa [process_files, hmem, hf, hc, hs1] using ih store
        · have hs1 : g.gcs_path ∈ (process_files fetch rest (insert g.gcs_path store)).1 :=
            process_files_store_mono fetch rest _ (Finset.mem_insert_self ..)
          simpa [process_files, hmem, hf, hc, hs1] using ih (insert g.gcs_path store)
      | none =>
        by_cases hs1 : g.gcs_path ∈ (process_files fetch rest store).1
        · simpa [process_files, hmem, hf, hs1] using ih store
        · simpa [process_files, hmem, hf, hs1] using ih store

/-- Placeholder resolution rewrites values only: the key sequence is
unchanged. -/
theorem resolve_config_references_keys (doc : List (String × Value)) :
    (resolve_config_references doc).map Prod.fst = doc.map Prod.fst := by
  unfold resolve_config_references
  generalize topStringPairs doc = pairs
  induction pairs generalizing doc with
  | nil => rfl
  | cons p rest ih =>
    simpa [List.foldl_cons, List.map_map, Function.comp_def] using
      (ih (doc.map fun e => (e.1, substValue (placeholder p.1) p.2 e.2))).trans
        (by simp [List.map_map, Function.comp_def])

/-- Unfolding `lookupKey` over a cons cell. -/
theorem lookupKey_cons (kv : String × Value) (rest : List (String × Value))
    (k : String) :
    lookupKey (kv :: rest) k
      = if kv.1 = k then some kv.2 else lookupKey rest k := by
  by_cases h : kv.1 = k <;> simp [lookupKey, List.find?_cons, h]

/-- `lookupKey` over an append: first list wins. -/
theorem lookupKey_append (l1 l2 : List (String × Value)) (k : String) :
    lookupKey (l1 ++ l2) k
      = match lookupKey l1 k with
        | some v => some v
        | none => lookupKey l2 k := by
  induction l1 with
  | nil => simp [lookupKey]
  | cons kv rest ih =>
    by_cases h : kv.1 = k <;>
      simp [List.cons_append, lookupKey_cons, h, ih]

/-- `lookupKey` over the overridden-base half of a `dict`-update. -/
theorem lookupKey_updateMap (d1 d2 : List (String × Value)) (k : String) :
    lookupKey (d1.map fun kv =>
        match lookupKey d2 kv.1 with
        | some v => (kv.1, v)
        | none => kv) k
      = match lookupKey d1 k, lookupKey d2 k with
        | some _, some v => some v
        | some w, none => some w
        | none, _ => none := by
  induction d1 with
  | nil => cases lookupKey d2 k <;> simp [lookupKey]
  | cons kv rest ih =>
    cases h2 : lookupKey d2 kv.1 with
    | none =>
      by_cases h : kv.1 = k
      · subst h
        simp [List.map_cons, h2, lookupKey_cons]
      · simp [List.map_cons, h2, lookupKey_cons, h, ih]
    | some v =>
      by_cases h : kv.1 = k
      · subst h
        simp [List.map_cons, h2, lookupKey_cons]
      · simp [List.map_cons, h2, lookupKey_cons, h, ih]

/-- `lookupKey` over the appended-new-keys half of a `dict`-update. -/
theorem lookupKey_filterNew (d1 d2 : List (String × Value)) (k : String) :
    lookupKey (d2.filter fun kv => (lookupKey d1 kv.1).isNone) k
      = match lookupKey d1 k with
        | some _ => none
        | none => lookupKey d2 k := by
  induction d2 with
  | nil => cases lookupKey d1 k <;> simp [lookupKey]
  | cons kv rest ih =>
    by_cases h : kv.1 = k
    · subst h
      cases h1 : lookupKey d1 kv.1 <;>
        simp [List.filter_cons, h1, lookupKey_cons, ih]
    · cases h1 : (lookupKey d1 kv.1).isNone <;>
        simp [List.filter_cons, h1, lookupKey_cons, h, ih]

/-- Looking a key up in a Python `dict`-update: the overlay's value wins
when present, the base's value is kept otherwise. -/
theorem lookupKey_pyDictUpdate (d1 d2 : List (String × Value)) (k : String) :
    lookupKey (pyDictUpdate d1 d2) k
      = match lookupKey d2 k with
        | some v => some v
        | none => lookupKey d1 k := by
  unfold pyDictUpdate
  rw [lookupKey_append, lookupKey_updateMap, lookupKey_filterNew]
  cases lookupKey d1 k <;> cases lookupKey d2 k <;> rfl

/-! ### Claim theorems -/

/-- C4: the planner emits exactly one descriptor per `(year, month)` with
`start_year ≤ year ≤ current year`, excluding months strictly after the
current month in the current year — in particular never a pair strictly
in the future — and for `start_year = 2024`, current date 2024-03, it
emits exactly the three descriptors 2024-01, 2024-02, 2024-03. -/
theorem C4_planner_emits_exactly_past_months (sy cy cm : Nat)
    (fPre ext folder : String) (u : String → String)
    (r : FileRec) (hr : r ∈ generate_file_list sy cy cm fPre ext folder u) :
    (¬ (cy < r.year ∨ (r.year = cy ∧ cm < r.month)))
    ∧ (sy ≤ r.year ∧ r.year ≤ cy ∧ 1 ≤ r.month ∧ r.month ≤ 12
        ∧ (r.year = cy → r.month ≤ cm))
    ∧ ((generate_file_list sy cy cm fPre ext folder u).map
        (fun s => (s.year, s.month))).Nodup
    ∧ (∀ y m, (y, m) ∈ (generate_file_list sy cy cm fPre ext folder u).map
          (fun s => (s.year, s.month)) ↔
        sy ≤ y ∧ y ≤ cy ∧ 1 ≤ m ∧ m ≤ 12 ∧ (y = cy → m ≤ cm))
    ∧ (generate_file_list 2024 2024 3 "yellow_tripdata" ".parquet"
          "taxi_data/" (fun n => "https://example.com/trip-data/" ++ n)).map
        (fun s => s.file_name)
      = ["yellow_tripdata_2024-01.parquet", "yellow_tripdata_2024-02.parquet",
         "yellow_tripdata_2024-03.parquet"] := by
  have hmem := mem_generate_file_list.mp hr
  refine ⟨?_, ⟨hmem.1, hmem.2.1, hmem.2.2.1, hmem.2.2.2.1, hmem.2.2.2.2.1⟩,
    ?_, ?_, by decide⟩
  · rcases hmem with ⟨_, h2, _, _, h5, _⟩
    rintro (hy | ⟨hyc, hm⟩)
    · omega
    · exact absurd (h5 hyc) (by omega)
  · simp only [generate_file_list]
    rw [List.map_flatMap]
    refine List.nodup_flatMap.mpr ⟨?_, ?_⟩
    · intro y _
      rw [List.map_filterMap]
      refine List.Nodup.filterMap ?_ (List.nodup_range' 1 12 1 (by decide))
      intro a b p hpa hpb
      rw [Option.mem_def] at hpa hpb
      by_cases ha : y = cy ∧ cm < a
      · simp [ha] at hpa
      by_cases hb : y = cy ∧ cm < b
      · simp [hb] at hpb
      rw [if_neg ha] at hpa
      rw [if_neg hb] at hpb
      simp only [Option.map_some', Option.some.injEq] at hpa hpb
      exact congrArg Prod.snd (hpa.trans hpb.symm)
    · refine List.Pairwise.imp ?_
        (List.nodup_range' sy (cy + 1 - sy) 1 (by decide))
      intro a b hab
      simp only [Function.onFun, List.disjoint_left]
      intro p hpa hpb
      rw [List.map_filterMap, List.mem_filterMap] at hpa hpb
      obtain ⟨m₁, _, hm₁⟩ := hpa
      obtain ⟨m₂, _, hm₂⟩ := hpb
      by_cases h₁ : a = cy ∧ cm < m₁
      · simp [h₁] at hm₁
      by_cases h₂ : b = cy ∧ cm < m₂
      · simp [h₂] at hm₂
      rw [if_neg h₁] at hm₁
      rw [if_neg h₂] at hm₂
      simp only [Option.map_some', Option.some.injEq] at hm₁ hm₂
      exact hab (congrArg Prod.fst (hm₁.trans hm₂.symm))
  · intro y m
    simp only [List.mem_map]
    constructor
    · rintro ⟨s, hs, hsym⟩
      have := mem_generate_file_list.mp hs
      obtain ⟨rfl, rfl⟩ : s.year = y ∧ s.month = m := by
        cases hsym; exact ⟨rfl, rfl⟩
      exact ⟨this.1, this.2.1, this.2.2.1, this.2.2.2.1, this.2.2.2.2.1⟩
    · rintro ⟨h1, h2, h3, h4, h5⟩
      refine ⟨{ year := y, month := m,
                file_name := fPre ++ "_" ++ toString y ++ "-" ++ pad2 m ++ ext,
                gcs_path := folder ++ (fPre ++ "_" ++ toString y ++ "-" ++ pad2 m ++ ext),
                url := u (fPre ++ "_" ++ toString y ++ "-" ++ pad2 m ++ ext) },
              mem_generate_file_list.mpr ?_, rfl⟩
      exact ⟨h1, h2, h3, h4, h5, rfl, rfl, rfl⟩

/-- Witness for C4: at the spec's instance (start year 2024, current date
2024-03), the first emitted descriptor satisfies the theorem's bounds. -/
theorem C4_planner_emits_exactly_past_months_witness :
    ¬ (2024 < (2024 : Nat) ∨ ((2024 : Nat) = 2024 ∧ 3 < (1 : Nat))) := by
  have h : ({ year := 2024, month := 1,
              file_name := "yellow_tripdata_2024-01.parquet",
              gcs_path := "taxi_data/yellow_tripdata_2024-01.parquet",
              url := "https://example.com/trip-data/yellow_tripdata_2024-01.parquet" } : FileRec)
      ∈ generate_file_list 2024 2024 3 "yellow_tripdata" ".parquet"
          "taxi_data/" (fun n => "https://example.com/trip-data/" ++ n) := by
    decide
  exact (C4_planner_emits_exactly_past_months 2024 2024 3 "yellow_tripdata"
    ".parquet" "taxi_data/" (fun n => "https://example.com/trip-data/" ++ n)
    _ h).1

/-- C3: the orchestrator records one outcome per work item (an item's
failure never aborts the batch and affects no other item's outcome) and
returns the number of successful items; on the spec's instance — three
items where item 2's transform raises — it reports 2 successes and still
attempts item 3. -/
theorem C3_partial_failure_containment :
    (∀ (o : StepOracle) (files : List String),
        (load_new_files_results o files).length = files.length
        ∧ load_new_files_count o files
            = (files.filter (fun f => process_file o f)).length
        ∧ load_new_files_results o files = files.map (process_file o))
    ∧ (let o3 : StepOracle :=
         { loadStep := fun _ => .ok ()
           transformStep := fun f =>
             if f = "file2.parquet" then .error "transform failed" else .ok ()
           cleanupStep := fun _ => .ok () }
       load_new_files_results o3 ["file1.parquet", "file2.parquet", "file3.parquet"]
           = [true, false, true]
       ∧ load_new_files_count o3 ["file1.parquet", "file2.parquet", "file3.parquet"] = 2
       ∧ process_file_tr o3 "file3.parquet"
           = ([.loadTempTable "file3.parquet", .transformInsert "file3.parquet",
               .dropTempTable "file3.parquet" true], true)) := by
  refine ⟨?_, by decide, by decide, by decide⟩
  intro o files
  refine ⟨List.length_map .., ?_, rfl⟩
  simp only [load_new_files_count, load_new_files_results]
  induction files with
  | nil => rfl
  | cons f fs ih =>
    cases h : process_file o f <;>
      simp [List.count_cons, List.filter_cons, h, ih]

/-- Counterexample to C5: when the transform-insert step raises, the
single `except` clause of `process_file` returns `False` without ever
attempting the temp-table drop — the drop is not unconditional.  Concrete
input: file `A.parquet`, load step succeeds, transform step raises. -/
theorem C5_counterexample_no_drop_after_failed_transform :
    LoadAction.dropTempTable "A.parquet" true ∉
        (process_file_tr failingTransformOracle "A.parquet").1
      ∧ (process_file_tr failingTransformOracle "A.parquet").1
        = [.loadTempTable "A.parquet", .transformInsert "A.parquet",
           .logFileError "A.parquet" "insert failed"] := by
  decide

/-- C5 (amended): the temp-table drop is attempted exactly when the
temp-table load and the transform-insert both succeed; every attempted
drop passes `not_found_ok=True` (a missing temp table is not an error at
that step); and on the success path the drop is the final warehouse call.
When the load or transform step raises, the drop is skipped. -/
theorem C5_amended_drop_only_on_success_path (o : StepOracle) (file : String) :
    (LoadAction.dropTempTable file true ∈ (process_file_tr o file).1 ↔
        (o.loadStep file).isOk = true ∧ (o.transformStep file).isOk = true)
    ∧ (∀ nfOk : Bool,
        LoadAction.dropTempTable file nfOk ∈ (process_file_tr o file).1 →
        nfOk = true)
    ∧ ((o.loadStep file).isOk = true → (o.transformStep file).isOk = true →
        (o.cleanupStep file).isOk = true →
        (process_file_tr o file).1.getLast? = some (.dropTempTable file true)) := by
  cases hl : o.loadStep file <;> cases ht : o.transformStep file <;>
    cases hc : o.cleanupStep file <;>
      simp [process_file_tr, hl, ht, hc, Except.isOk, Except.toBool]

/-- Witness for C5 (amended): with every step succeeding on file
`A.parquet`, the conclusions hold — in particular the final attempted
call is the drop with `not_found_ok=True`. -/
theorem C5_amended_drop_only_on_success_path_witness :
    (process_file_tr allOkOracle "A.parquet").1.getLast?
      = some (.dropTempTable "A.parquet" true) :=
  (C5_amended_drop_only_on_success_path allOkOracle "A.parquet").2.2
    (by decide) (by decide) (by decide)

/-- C1: for every warehouse-known set `W` and staged set `S`, the work
set computed by `load_new_files` is exactly the set difference `S \ W`
(membership: staged and not yet known), computed from the blob listing
and the warehouse query; in particular for `W = {A,B}` and `S = {A,B,C}`
the work set is exactly `{C}`. -/
theorem C1_workset_is_set_difference :
    (∀ (S W : Finset String) (f : String),
        f ∈ new_files_workset S W ↔ f ∈ S ∧ f ∉ W)
    ∧ (∀ (blobNames rows : List String) (ext : String) (f : String),
        f ∈ load_new_files_workset blobNames ext (.ok rows) ↔
          (∃ n ∈ blobNames, strEndsWith n ext = true ∧ lastComponent n = f)
          ∧ f ∉ rows)
    ∧ load_new_files_workset
        ["taxi/A.parquet", "taxi/B.parquet", "taxi/C.parquet"] ".parquet"
        (.ok ["A.parquet", "B.parquet"]) = {"C.parquet"} := by
  refine ⟨?_, ?_, by decide⟩
  · intro S W f
    simp [new_files_workset]
  · intro blobNames rows ext f
    simp only [load_new_files_workset, new_files_workset, get_gcs_files,
      get_existing_files, Finset.mem_sdiff, List.mem_toFinset, List.mem_map,
      List.mem_filter]
    constructor
    · rintro ⟨⟨n, ⟨hn, hext⟩, hlast⟩, hnotin⟩
      exact ⟨⟨n, hn, hext, hlast⟩, hnotin⟩
    · rintro ⟨⟨n, hn, hext, hlast⟩, hnotin⟩
      exact ⟨⟨n, ⟨hn, hext⟩, hlast⟩, hnotin⟩

/-- C2: running a stage a second time against the state the first run
left behind is a no-op.  Staging: with every candidate's fetch returning
non-empty content, the second staging run returns the unchanged store, a
zero count, and an event list that skips every candidate at the
object-store existence gate.  Loading: with every work-set item's rows
recorded by the first load run, the second run's computed work set is
empty and its success count is zero. -/
theorem C2_second_run_stages_and_loads_nothing
    (fetch : String → Option (List Nat)) (files : List FileRec)
    (store : Finset String) (o : StepOracle) (gcs warehouse : Finset String)
    (hfetch : ∀ f ∈ files, ∃ c, fetch f.url = some c ∧ c ≠ [])
    (hload : ∀ f ∈ new_files_workset gcs warehouse, rows_recorded o f = true) :
    (process_files fetch files (process_files fetch files store).1
        = ((process_files fetch files store).1, 0,
           files.map fun f => .skippedExists f.file_name))
    ∧ new_files_workset gcs (warehouse_after_load o gcs warehouse) = ∅
    ∧ load_new_files_count_run o gcs (warehouse_after_load o gcs warehouse) = 0 := by
  have hsub : gcs ⊆ warehouse_after_load o gcs warehouse := by
    intro x hx
    by_cases hw : x ∈ warehouse
    · exact Finset.mem_union_left _ hw
    · have hnew : x ∈ new_files_workset gcs warehouse :=
        Finset.mem_sdiff.mpr ⟨hx, hw⟩
      exact Finset.mem_union_right _
        (Finset.mem_filter.mpr ⟨hnew, hload x hnew⟩)
  have hempty : new_files_workset gcs (warehouse_after_load o gcs warehouse) = ∅ := by
    rw [new_files_workset, Finset.sdiff_eq_empty_iff_subset]
    exact hsub
  refine ⟨?_, hempty, ?_⟩
  · exact process_files_all_exist fetch files _
      (process_files_covers fetch files store hfetch)
  · rw [load_new_files_count_run, hempty]
    simp [load_new_files_count, load_new_files_results]

/-- Witness for C2: one candidate file, fetch returning `[1]`, all load
steps succeeding — the second staging run over the post-run store skips
the candidate at the existence gate and stages nothing. -/
theorem C2_second_run_stages_and_loads_nothing_witness :
    process_files (fun _ => some [1])
        [{ year := 2024, month := 1, file_name := "A.parquet",
           gcs_path := "taxi/A.parquet", url := "u" }]
        (process_files (fun _ => some [1])
          [{ year := 2024, month := 1, file_name := "A.parquet",
             gcs_path := "taxi/A.parquet", url := "u" }] ∅).1
      = ((process_files (fun _ => some [1])
            [{ year := 2024, month := 1, file_name := "A.parquet",
               gcs_path := "taxi/A.parquet", url := "u" }] ∅).1, 0,
         [.skippedExists "A.parquet"]) :=
  (C2_second_run_stages_and_loads_nothing (fun _ => some [1])
    [{ year := 2024, month := 1, file_name := "A.parquet",
       gcs_path := "taxi/A.parquet", url := "u" }] ∅
    allOkOracle {"A.parquet"} ∅
    (fun _ _ => ⟨[1], rfl, by decide⟩) (by decide)).1

/-- C6: on a 200 response, `fetch_and_filter_file` never returns the
absent result because of column filtering — it always returns some bytes;
a schema-read failure, an empty intersection of requested and available
columns, or a projection failure all return the full unfiltered body. -/
theorem C6_http200_never_fails_due_to_filtering
    (r : HttpResponse) (url : String) (cols : List String) (po : ParquetOracle)
    (h200 : r.status = 200) :
    (∃ b, fetch_and_filter_file (.ok r) url cols po = some b)
    ∧ (∀ e, po.readSchema = .error e →
        fetch_and_filter_file (.ok r) url cols po = some r.body)
    ∧ (∀ avail, po.readSchema = .ok avail →
        cols.filter (fun c => decide (c ∈ avail)) = [] →
        fetch_and_filter_file (.ok r) url cols po = some r.body)
    ∧ (∀ avail e, po.readSchema = .ok avail →
        po.project (cols.filter fun c => decide (c ∈ avail)) = .error e →
        fetch_and_filter_file (.ok r) url cols po = some r.body) := by
  refine ⟨?_, ?_, ?_, ?_⟩
  · simp only [fetch_and_filter_file, if_pos h200]
    by_cases hcols : cols = [] ∨ strEndsWith url ".parquet" = false
    · exact ⟨r.body, by rw [if_pos hcols]⟩
    · rw [if_neg hcols]
      cases hs : po.readSchema with
      | error e => exact ⟨r.body, rfl⟩
      | ok avail =>
        by_cases hempty : cols.filter (fun c => decide (c ∈ avail)) = []
        · exact ⟨r.body, by simp [hempty]⟩
        · cases hp : po.project (cols.filter fun c => decide (c ∈ avail)) with
          | error e => exact ⟨r.body, by simp [hempty, hp]⟩
          | ok outBytes => exact ⟨outBytes, by simp [hempty, hp]⟩
  · intro e he
    by_cases hcols : cols = [] ∨ strEndsWith url ".parquet" = false <;>
      simp [fetch_and_filter_file, h200, hcols, he]
  · intro avail ha hf
    by_cases hcols : cols = [] ∨ strEndsWith url ".parquet" = false <;>
      simp [fetch_and_filter_file, h200, hcols, ha, hf]
  · intro avail e ha hp
    by_cases hcols : cols = [] ∨ strEndsWith url ".parquet" = false
    · simp [fetch_and_filter_file, h200, hcols]
    · by_cases hempty : cols.filter (fun c => decide (c ∈ avail)) = [] <;>
        simp [fetch_and_filter_file, h200, hcols, ha, hempty, hp]

/-- Witness for C6: a 200 response whose requested column does not occur
in the file's schema falls back to the full body `[7, 7]`. -/
theorem C6_http200_never_fails_due_to_filtering_witness :
    fetch_and_filter_file (.ok ⟨200, [7, 7]⟩) "d/x.parquet" ["a"]
        ⟨.ok ["b"], fun _ => .error "boom"⟩ = some [7, 7] :=
  (C6_http200_never_fails_due_to_filtering ⟨200, [7, 7]⟩ "d/x.parquet" ["a"]
    ⟨.ok ["b"], fun _ => .error "boom"⟩ rfl).2.2.1 ["b"] rfl (by decide)

/-- The two-stage column cleaning acts cell-wise. -/
theorem clean_numeric_column_eq_map (parse : String → Option ℚ)
    (cells : List String) :
    clean_numeric_column parse cells = cells.map (cleanCell parse) := by
  induction cells with
  | nil => rfl
  | cons c rest ih =>
    simp only [clean_numeric_column, replaceSentinels, to_numeric_coerce,
      List.map_cons, List.cons.injEq] at ih ⊢
    refine ⟨?_, ih⟩
    by_cases hcs : c ∈ sentinel_strings <;> simp [cleanCell, hcs]

/-- C7: for every numeric weather column and every cell, the cleaning
maps each sentinel string to null (never to zero), maps every
un-parseable value to null (coercion, not an exception: the result is
always null or a number), leaves other values to the numeric parser, and
applies exactly this cell-wise cleaning to each numeric column of the
frame. -/
theorem C7_sentinels_normalize_to_null
    (col : String) (hcol : col ∈ weather_numeric_columns)
    (parse : String → Option ℚ) (s : String) (cells : List String) :
    (s ∈ sentinel_strings → cleanCell parse s = none)
    ∧ (parse s = none → cleanCell parse s = none)
    ∧ (s ∉ sentinel_strings → cleanCell parse s = parse s)
    ∧ (cleanCell parse s = none
        ∨ ∃ q, parse s = some q ∧ cleanCell parse s = some q)
    ∧ (s ∈ sentinel_strings → cleanCell parse s ≠ some 0)
    ∧ clean_numeric_column parse cells = cells.map (cleanCell parse)
    ∧ clean_numeric_data parse [(col, cells)]
        = [(col, Sum.inr (cells.map (cleanCell parse)))] := by
  refine ⟨fun h => by simp [cleanCell, h], ?_, fun h => by simp [cleanCell, h],
    ?_, fun h => by simp [cleanCell, h], clean_numeric_column_eq_map parse cells,
    ?_⟩
  · intro hp
    by_cases h : s ∈ sentinel_strings <;> simp [cleanCell, h, hp]
  · by_cases h : s ∈ sentinel_strings
    · exact Or.inl (by simp [cleanCell, h])
    · cases hp : parse s with
      | none => exact Or.inl (by simp [cleanCell, h, hp])
      | some q => exact Or.inr ⟨q, rfl, by simp [cleanCell, h, hp]⟩
  · simp [clean_numeric_data, hcol, clean_numeric_column_eq_map]

/-- Witness for C7: on the `tmpf` column under the concrete decimal
parser, the sentinel `M` cleans to null while the non-sentinel `12.5`
passes to the parser, which yields a number. -/
theorem C7_sentinels_normalize_to_null_witness :
    cleanCell toNumericModel "M" = none
      ∧ cleanCell toNumericModel "12.5" = toNumericModel "12.5"
      ∧ (toNumericModel "12.5").isSome = true :=
  ⟨(C7_sentinels_normalize_to_null "tmpf" (by decide) toNumericModel "M"
      ["M", "12.5"]).1 (by decide),
    (C7_sentinels_normalize_to_null "tmpf" (by decide) toNumericModel "12.5"
      ["M", "12.5"]).2.2.1 (by decide), by decide⟩

/-- Counterexample to C8: `extract.py`'s `load_config` does not start
from the non-section top-level keys — it only excludes the keys literally
named `extract` and `load`, so for a document with a further section
`extract_weather` that section's key survives into the resolved `load`
section, while the claimed "non-section keys overlaid by the section"
construction contains no such key. -/
theorem C8_counterexample_section_key_leaks :
    extract_loadConfig mixedConfigDoc (some "load")
        = some [("x", Value.leaf (.nat 1)),
                ("extract_weather", Value.dict [("w", Leaf.nat 9)]),
                ("y", Value.leaf (.nat 3))]
      ∧ lookupKey mixedConfigDoc "extract_weather"
          = some (Value.dict [("w", Leaf.nat 9)])
      ∧ (Value.dict [("w", Leaf.nat 9)]).isDictB = true
      ∧ lookupKey (pyDictUpdate (mixedConfigDoc.filter fun kv => !kv.2.isDictB)
            (liftSection [("y", Leaf.nat 3)])) "extract_weather" = none := by
  decide

/-- C8 (amended): `load.py`'s resolver does start from exactly the
non-dict top-level keys and overlays the requested section, section keys
winning on conflict (and placeholder resolution afterwards only rewrites
values, never keys); `extract.py`'s resolver instead excludes only the
keys named `extract` and `load`, so other section keys leak through.  On
the spec's instance — globals `{x:1, y:2}`, section `load: {y:3, z:4}` —
both resolvers yield exactly `{x:1, y:3, z:4}`. -/
theorem C8_amended_merge :
    (∀ (doc : List (String × Value)) (s : String) (sec : List (String × Leaf)),
        lookupKey doc s = some (.dict sec) →
        load_loadConfig doc (some s)
          = some (resolve_config_references
              (pyDictUpdate (doc.filter fun kv => !kv.2.isDictB)
                (liftSection sec))))
    ∧ (∀ (doc : List (String × Value)) (sec : List (String × Leaf)) (k : String),
        lookupKey (pyDictUpdate (doc.filter fun kv => !kv.2.isDictB)
            (liftSection sec)) k
          = match lookupKey (liftSection sec) k with
            | some v => some v
            | none => lookupKey (doc.filter fun kv => !kv.2.isDictB) k)
    ∧ (∀ doc : List (String × Value),
        (resolve_config_references doc).map Prod.fst = doc.map Prod.fst)
    ∧ load_loadConfig specConfigDoc (some "load")
        = some [("x", .leaf (.nat 1)), ("y", .leaf (.nat 3)),
                ("z", .leaf (.nat 4))]
    ∧ extract_loadConfig specConfigDoc (some "load")
        = some [("x", .leaf (.nat 1)), ("y", .leaf (.nat 3)),
                ("z", .leaf (.nat 4))] := by
  refine ⟨?_, ?_, resolve_config_references_keys, by decide, by decide⟩
  · intro doc s sec hs
    simp [load_loadConfig, hs]
  · intro doc sec k
    exact lookupKey_pyDictUpdate ..

/-- Witness for C8 (amended): on the spec's document, `load.py`'s
resolver is the claimed merge of non-section keys and section keys. -/
theorem C8_amended_merge_witness :
    load_loadConfig specConfigDoc (some "load")
      = some (resolve_config_references
          (pyDictUpdate (specConfigDoc.filter fun kv => !kv.2.isDictB)
            (liftSection [("y", Leaf.nat 3), ("z", Leaf.nat 4)]))) :=
  C8_amended_merge.1 specConfigDoc "load"
    [("y", Leaf.nat 3), ("z", Leaf.nat 4)] (by decide)

/-- Counterexample to C9: the taxi-load stage (`load.py load_pipeline`)
never attempts to ship its log — not even on a fully successful set-up
run — and in the extract stage a failure of the log-shipping step itself
propagates to the caller without the log content being printed. -/
theorem C9_counterexample_shipping_fallback_missing :
    RunEvent.shipLogAttempt ∉ load_pipeline_run allOkLoadPipelineOracle
      ∧ RunEvent.printLogContent ∉
          (extract_main_run (.ok 3) (.error "upload failed")).1
      ∧ (extract_main_run (.ok 3) (.error "upload failed")).2
          = some "upload failed" := by
  decide

/-- C9 (amended): the extract and weather-extract stages always attempt
to ship the log (body success or failure) but a shipping failure
propagates to the caller without printing the buffered log; the
weather-load stage always attempts to ship and, when shipping fails,
prints the error and the full log content as a last resort; the taxi-load
stage's pipeline ships no log on any path. -/
theorem C9_amended_log_shipping (body : Except String Nat)
    (bodyW : Except String Unit) (ship : Except String Unit) :
    RunEvent.shipLogAttempt ∈ (extract_main_run body ship).1
    ∧ RunEvent.shipLogAttempt ∈ (extract_weather_main_run body ship).1
    ∧ RunEvent.shipLogAttempt ∈ (load_weather_pipeline_run bodyW ship).1
    ∧ (∀ e, ship = .error e →
        RunEvent.printLogContent ∈ (load_weather_pipeline_run bodyW ship).1
        ∧ RunEvent.printLogContent ∉ (extract_main_run body ship).1
        ∧ (extract_main_run body ship).2 = some e)
    ∧ (∀ o : LoadPipelineOracle, RunEvent.shipLogAttempt ∉ load_pipeline_run o) := by
  refine ⟨?_, ?_, ?_, ?_, ?_⟩
  · cases body <;> cases ship <;> simp [extract_main_run]
  · cases body <;> cases ship <;> simp [extract_weather_main_run]
  · cases bodyW <;> cases ship <;> simp [load_weather_pipeline_run]
  · rintro e rfl
    cases body <;> cases bodyW <;>
      simp [extract_main_run, load_weather_pipeline_run]
  · rintro ⟨fe, rf, py, il, lc, ic⟩
    cases fe <;> cases rf <;> cases py <;> cases il <;> cases lc <;>
      cases ic <;> simp [load_pipeline_run]

/-- Witness for C9 (amended): with a successful body and a failing
shipping call, the weather-load stage prints the buffered log content. -/
theorem C9_amended_log_shipping_witness :
    RunEvent.printLogContent
      ∈ (load_weather_pipeline_run (.ok ()) (.error "boom")).1 :=
  ((C9_amended_log_shipping (.ok 0) (.ok ()) (.error "boom")).2.2.2.1
    "boom" rfl).1

/-- C10: when the warehouse query for already-loaded files fails for any
reason whatsoever, both existence gates return the empty set of known
files, so the computed work set is the whole staged set — every staged
file is classified as new for that run. -/
theorem C10_query_failure_classifies_all_staged_files_new :
    (∀ err : String, get_existing_files (.error err) = ∅)
    ∧ (∀ err : String, get_existing_weather_files (.error err) = ∅)
    ∧ (∀ (blobNames : List String) (ext : String) (err : String),
        load_new_files_workset blobNames ext (.error err)
          = get_gcs_files blobNames ext)
    ∧ (∀ (blobNames : List String) (err : String),
        weather_new_files blobNames (get_existing_weather_files (.error err))
          = blobNames) := by
  refine ⟨fun _ => rfl, fun _ => rfl, ?_, ?_⟩
  · intro blobNames ext err
    simp [load_new_files_workset, new_files_workset, get_existing_files]
  · intro blobNames err
    simp [weather_new_files, get_existing_weather_files]

end TaxiTrips
